import Mathlib

/-!
Verification of the apns client library (legacy binary APNs protocol).

This file shallowly embeds the parts of the Go source that the claims
C1..C10 are about:

  * push_notification.go : `Payload`, `PushNotification`, `PayloadJSON`,
    `ToBytes`, the identifier assignment in `NewPushNotification`;
  * connection.go        : the `limbo` goroutine's response handling, the
    `sender` goroutine's encode/write dispatch and its backoff reconnect
    loop, `maxBackoff`;
  * the pool connection file : `Connection.Close`.

Machine integers are modelled as `Nat` with explicit `% 2 ^ w` where the
source casts; fallible operations return `Option` / `Except`; the
scheduler-dependent parts (channels, goroutines) are modelled as pure
functions from the dequeued values and the environment's choices (write
success, number of failed connect attempts, raw PRNG samples) to the
lists of emitted events, in emission order.
-/

namespace Apns

/-! ## JSON marshalling (encoding/json on the value shapes this library stores)

`json.Marshal` is standard-library code; it is embedded here only for the
value shapes the repository actually marshals: a `map[string]interface{}`
whose values are strings, ints, or a `*Payload` whose fields carry the
`omitempty` option.  All strings appearing in the claims are ASCII and
free of characters that `encoding/json` escapes, so the escaper below
handles only the quote and backslash. -/

/-- The opening brace character `\x7b`. -/
def lbrace : String := "\x7b"

/-- The closing brace character `\x7d`. -/
def rbrace : String := "\x7d"

/-- Escape one character as Go's `encoding/json` does for the characters
used in this development (quote and backslash; other ASCII passes through). -/
def jsonEscapeChar (c : Char) : String :=
  if c = '"' then "\\\""
  else if c = '\\' then "\\\\"
  else String.mk [c]

/-- Escape a string for inclusion in a JSON string literal. -/
def jsonEscape (s : String) : String :=
  String.join (s.toList.map jsonEscapeChar)

/-- A JSON string literal. -/
def jsonQuote (s : String) : String := "\"" ++ jsonEscape s ++ "\""

/-- push_notification.go:

```
type Payload struct {
    Alert interface{} `json:"alert,omitempty"`
    Badge int         `json:"badge,omitempty"`
    Sound string      `json:"sound,omitempty"`
}
```

`Alert` is `interface{}` in the source (a string or an `*AlertDictionary`);
the claims only exercise the string / nil cases, so it is modelled as
`Option String` (a nil interface is omitted by `omitempty`). -/
structure Payload where
  Alert : Option String
  Badge : Int
  Sound : String
deriving DecidableEq, Repr

/-- `json.Marshal` of a `*Payload`: struct fields in declaration order,
each dropped by `omitempty` when it holds its zero value (`nil`
interface, `0` int, `""` string).  Note that the `int` field `Badge`
with `omitempty` omits the value `0`. -/
def marshalPayload (p : Payload) : String :=
  let fields :=
    (match p.Alert with
     | some a => [jsonQuote "alert" ++ ":" ++ jsonQuote a]
     | none => []) ++
    (if p.Badge ≠ 0 then [jsonQuote "badge" ++ ":" ++ toString p.Badge] else []) ++
    (if p.Sound ≠ "" then [jsonQuote "sound" ++ ":" ++ jsonQuote p.Sound] else [])
  lbrace ++ String.intercalate "," fields ++ rbrace

/-- A value stored in the notification's `map[string]interface{}` payload:
the repository stores strings, ints and `*Payload` (under `"aps"`). -/
inductive JsonValue where
  | str (s : String)
  | num (n : Int)
  | pay (p : Payload)
deriving DecidableEq, Repr

/-- Marshal one map value. -/
def marshalValue : JsonValue → String
  | .str s => jsonQuote s
  | .num n => toString n
  | .pay p => marshalPayload p

/-- Insert a key/value pair into a key-sorted association list. -/
def insertByKey (kv : String × JsonValue) :
    List (String × JsonValue) → List (String × JsonValue)
  | [] => [kv]
  | h :: t => if kv.1 < h.1 then kv :: h :: t else h :: insertByKey kv t

/-- Sort an association list by key (Go marshals map keys in sorted order). -/
def sortByKey : List (String × JsonValue) → List (String × JsonValue)
  | [] => []
  | h :: t => insertByKey h (sortByKey t)

/-- `json.Marshal` of a non-nil `map[string]interface{}` (the constructor
`NewPushNotification` always initializes the map): keys in sorted order. -/
def marshalMap (m : List (String × JsonValue)) : String :=
  lbrace ++
    String.intercalate ","
      ((sortByKey m).map fun kv => jsonQuote kv.1 ++ ":" ++ marshalValue kv.2) ++
  rbrace

/-! ## UTF-8 bytes

Go's `len` on the marshalled `[]byte` counts UTF-8 bytes. -/

/-- UTF-8 encoding of one character (code point), as a list of byte values. -/
def utf8EncodeChar (c : Char) : List Nat :=
  let n := c.toNat
  if n < 0x80 then [n]
  else if n < 0x800 then
    [0xC0 ||| (n >>> 6), 0x80 ||| (n &&& 0x3F)]
  else if n < 0x10000 then
    [0xE0 ||| (n >>> 12), 0x80 ||| ((n >>> 6) &&& 0x3F), 0x80 ||| (n &&& 0x3F)]
  else
    [0xF0 ||| (n >>> 18), 0x80 ||| ((n >>> 12) &&& 0x3F),
     0x80 ||| ((n >>> 6) &&& 0x3F), 0x80 ||| (n &&& 0x3F)]

/-- The UTF-8 byte sequence of a string. -/
def strBytes (s : String) : List Nat :=
  (s.toList.map utf8EncodeChar).flatten

/-! ## push_notification.go constants and the notification record -/

/-- `const PUSH_COMMAND_VALUE = 1` -/
def PUSH_COMMAND_VALUE : Nat := 1

/-- `const MAX_PAYLOAD_SIZE_BYTES = 256` (the only payload size limit in
the source; there is no separate limit for newer iOS versions). -/
def MAX_PAYLOAD_SIZE_BYTES : Nat := 256

/-- `const IDENTIFIER_UBOUND = 9999` -/
def IDENTIFIER_UBOUND : Nat := 9999

/-- push_notification.go:

```
type PushNotification struct {
    Identifier  int32
    Expiry      uint32
    DeviceToken string
    payload     map[string]interface{}
}
```

`Identifier` is an `int32` in the source, but the library only ever
assigns it values in `[0, IDENTIFIER_UBOUND)` (from `Int31n`), so it is
modelled as `Nat`; `ToBytes` writes it with an explicit `% 2 ^ 32` where
the source casts `uint32(this.Identifier)`. -/
structure PushNotification where
  Identifier : Nat
  Expiry : Nat
  DeviceToken : String
  payload : List (String × JsonValue)
deriving DecidableEq, Repr

/-- `PayloadJSON` = `json.Marshal(this.payload)` (the marshal of the value
shapes stored by this library is total, so no error case arises). -/
def PushNotification.PayloadJSON (pn : PushNotification) : String :=
  marshalMap pn.payload

/-! ## encoding/hex (DecodeString) -/

/-- Value of one hexadecimal digit character, or `none`. -/
def hexDigitValue (c : Char) : Option Nat :=
  if '0' ≤ c ∧ c ≤ '9' then some (c.toNat - '0'.toNat)
  else if 'a' ≤ c ∧ c ≤ 'f' then some (c.toNat - 'a'.toNat + 10)
  else if 'A' ≤ c ∧ c ≤ 'F' then some (c.toNat - 'A'.toNat + 10)
  else none

/-- `hex.DecodeString` on a character list: pairs of hex digits become
bytes; an odd length (`ErrLength`) or an invalid digit
(`InvalidByteError`) is an error, modelled as `none`. -/
def hexDecodeList : List Char → Option (List Nat)
  | [] => some []
  | [_] => none
  | a :: b :: rest =>
    match hexDigitValue a, hexDigitValue b, hexDecodeList rest with
    | some ha, some hb, some bs => some ((ha * 16 + hb) :: bs)
    | _, _, _ => none

/-- `hex.DecodeString`. -/
def hexDecode (s : String) : Option (List Nat) :=
  hexDecodeList s.toList

/-! ## Binary frame writers (encoding/binary, big-endian) -/

/-- One byte. -/
def u8 (n : Nat) : List Nat := [n % 256]

/-- A `uint16`, big-endian. -/
def u16be (n : Nat) : List Nat := [n / 256 % 256, n % 256]

/-- A `uint32`, big-endian. -/
def u32be (n : Nat) : List Nat :=
  [n / 2 ^ 24 % 256, n / 2 ^ 16 % 256, n / 2 ^ 8 % 256, n % 256]

/-- The two distinguishable error results of `ToBytes`: the
`hex.DecodeString` error, and the `"payload is larger than the 256 byte
limit"` error.  (`json.Marshal` cannot fail on this library's payload
values, so the `BadPayload` case never arises.) -/
inductive EncodeError where
  | badToken
  | payloadTooLarge
deriving DecidableEq, Repr

/-- push_notification.go `ToBytes`:

```
token, err := hex.DecodeString(this.DeviceToken)
if err != nil { return nil, err }
payload, err := this.PayloadJSON()
if err != nil { return nil, err }
if len(payload) > MAX_PAYLOAD_SIZE_BYTES { return nil, errors.New(...) }
// command u8=1, identifier u32be, expiry u32be,
// len(token) u16be, token, len(payload) u16be, payload
```

Note the source never checks `len(token) == 32`; whatever byte length the
hex string decodes to is framed with its actual length. -/
def PushNotification.ToBytes (pn : PushNotification) :
    Except EncodeError (List Nat) :=
  match hexDecode pn.DeviceToken with
  | none => .error .badToken
  | some token =>
    let payload := strBytes pn.PayloadJSON
    if payload.length > MAX_PAYLOAD_SIZE_BYTES then .error .payloadTooLarge
    else .ok (u8 PUSH_COMMAND_VALUE ++ u32be (pn.Identifier % 2 ^ 32) ++
              u32be (pn.Expiry % 2 ^ 32) ++ u16be token.length ++ token ++
              u16be payload.length ++ payload)

/-! ## Identifier assignment (NewPushNotification)

```
pn.Identifier = rand.New(rand.NewSource(time.Now().UnixNano())).Int31n(IDENTIFIER_UBOUND)
```

`math/rand`'s `Int31n(n)` (for `n = 9999`, not a power of two) draws raw
31-bit samples `v`, rejects those above `2^31 - 1 - 2^31 % 9999 =
2147475230`, and returns `v % n` for the first accepted sample.  The raw
sample is the environment's choice (a fresh generator is seeded from the
wall clock on every call), so the assignment is modelled as a function of
the accepted raw sample. -/

/-- `Int31n` applied to an accepted raw sample `v` (any `v ≤ 2147475230`
survives the rejection step). -/
def int31n (v n : Nat) : Nat := v % n

/-- The identifier `NewPushNotification` assigns, as a function of the
accepted raw PRNG sample of that call. -/
def newPushNotificationIdentifier (v : Nat) : Nat :=
  int31n v IDENTIFIER_UBOUND

/-! ## connection.go : responses, limbo, sender, backoff -/

/-- connection.go `Response`: `Status uint8`, `Identifier uint32`. -/
structure Response where
  Status : Nat
  Identifier : Nat
deriving DecidableEq, Repr

/-- connection.go `BadPushNotification`: the rejected notification and the
status byte of the error frame. -/
structure BadPushNotification where
  pushNotification : PushNotification
  Status : Nat
deriving DecidableEq, Repr

/-- connection.go `timedPushNotification`: a notification plus the time it
was handed to limbo (`time.Now()` at the `sent` receive). -/
structure timedPushNotification where
  pushNotification : PushNotification
  time : Nat
deriving DecidableEq, Repr

/-- The loop body of the `responses` case of connection.go's `limbo`
goroutine, as a recursion over the limbo slice:

```
for i, pn := range limbo {
    if pn.Identifier == resp.Identifier {
        if resp.Status != 10 {
            bad := BadPushNotification{PushNotification: pn.PushNotification, Status: resp.Status}
            go func(bad BadPushNotification) { errors <- bad }(bad)
        }
        if len(limbo) > i {                       // always true inside the loop
            toRequeue := len(limbo) - (i + 1)     // = length of limbo[i+1:]
            if toRequeue > 0 { conn.requeue(limbo[i+1:]) }
        }
    }
}
```

The first component collects the `BadPushNotification`s emitted on the
errors channel and the second the notifications handed back to the input
queue by `requeue` (which calls `Enqueue` once per element of
`limbo[i+1:]`, in slice order), both in emission order.  At each
recursion step the remaining suffix `rest` is exactly `limbo[i+1:]`. -/
def limboScan (resp : Response) :
    List timedPushNotification →
      List BadPushNotification × List PushNotification
  | [] => ([], [])
  | e :: rest =>
    let tail := limboScan resp rest
    if e.pushNotification.Identifier = resp.Identifier then
      let eb := if resp.Status ≠ 10 then
          [⟨e.pushNotification, resp.Status⟩] else []
      let er := if rest.length > 0 then
          rest.map (·.pushNotification) else []
      (eb ++ tail.1, er ++ tail.2)
    else tail

/-- The whole `responses` case: run the scan, then
`limbo = make([]timedPushNotification, 0, SentBufferSize)` — the limbo
buffer is cleared unconditionally.  Result: (errors emitted, requeued
notifications, new limbo buffer). -/
def processResponse (resp : Response) (limbo : List timedPushNotification) :
    List BadPushNotification × List PushNotification ×
      List timedPushNotification :=
  let scanned := limboScan resp limbo
  (scanned.1, scanned.2, [])

/-- The observable effect of one `sender` dequeue on the world. -/
structure SendOutcome where
  wireBytes : List Nat
  sentToLimbo : Option PushNotification
  badEmitted : List BadPushNotification
  reconnectRaised : Bool
deriving DecidableEq, Repr

/-- connection.go `sender`, the dequeue branch after the non-blocking
reconnect check:

```
payload, err := pn.ToBytes()
if err != nil {
    log.Println(err)
    // Should report this on the bad notifications channel probably
} else {
    n, err := conn.conn.Write(payload)
    if err != nil {
        log.Println(err)
        go func() { conn.shouldReconnect <- true }()
    } else {
        sent <- pn
    }
}
```

On an encode error the source only logs: nothing reaches the errors
channel, the socket, or limbo.  `writeOk` is the environment's choice of
whether the socket write succeeds. -/
def senderDispatch (pn : PushNotification) (writeOk : Bool) : SendOutcome :=
  match pn.ToBytes with
  | .error _ => ⟨[], none, [], false⟩
  | .ok frame =>
    if writeOk then ⟨frame, some pn, [], false⟩
    else ⟨[], none, [], true⟩

/-- `var maxBackoff = 20 * time.Second` — in nanoseconds (the unit of
`time.Duration`). -/
def maxBackoff : Nat := 20 * 1000000000

/-- `var backoff = time.Duration(100)` — the untyped constant 100 is 100
*nanoseconds*. -/
def initialBackoff : Nat := 100

/-- `if backoff > maxBackoff { backoff = maxBackoff }` -/
def capBackoff (b : Nat) : Nat :=
  if b > maxBackoff then maxBackoff else b

/-- connection.go `sender`'s reconnect loop, driven by the number of
consecutive `connect()` failures the environment produces before a
success:

```
for {
    err := conn.connect()
    if err != nil {
        backoff = backoff * 2
        if backoff > maxBackoff { backoff = maxBackoff }
        time.Sleep(backoff)
    } else {
        backoff = 100
        break
    }
}
```

Returns the list of sleep durations (nanoseconds, in order) and the value
of `backoff` after the loop exits.  Note the source doubles (and caps)
*before* sleeping. -/
def reconnectLoop : Nat → Nat → List Nat × Nat
  | 0, _ => ([], 100)
  | n + 1, backoff =>
    let b := capBackoff (backoff * 2)
    let rest := reconnectLoop n b
    (b :: rest.1, rest.2)

/-! ## The pool connection's Close -/

/-- The pool connection file:

```
type Connection struct {
    connection  *tls.Conn
    writeCount  int
    connectTime time.Time
}
```

`connection` is modelled by whether it is non-nil; `connectTime` in
nanoseconds with `0` for the zero `time.Time{}`. -/
structure Connection where
  connection : Bool
  writeCount : Nat
  connectTime : Nat
deriving DecidableEq, Repr

/-- `Connection.Close`:

```
if c.connection == nil { return nil }
err := c.connection.Close()
if err == nil {
    c.connection = nil
    c.writeCount = 0
    c.connectTime = time.Time{}
}
return err
```

`closeErr` is the environment's choice of whether the underlying TLS close
fails; the first component is the returned error (`none` = nil). -/
def Connection.Close (c : Connection) (closeErr : Bool) :
    Option Unit × Connection :=
  if c.connection = false then (none, c)
  else if closeErr then (some (), c)
  else (none, ⟨false, 0, 0⟩)

/-- Whether an encode attempt produced frame bytes. -/
def encodeOk : Except EncodeError (List Nat) → Bool
  | .ok _ => true
  | .error _ => false

/-! ## Concrete instances used by witnesses and counterexamples -/

/-- A limbo entry holding a notification with the given identifier. -/
def mkTimed (i : Nat) : timedPushNotification := ⟨⟨i, 0, "", []⟩, 0⟩

/-- An error frame whose identifier (7) matches nothing in `limboC3`. -/
def respC3 : Response := ⟨8, 7⟩

/-- A one-entry limbo buffer (identifier 5). -/
def limboC3 : List timedPushNotification := [mkTimed 5]

/-- A notification whose `aps` payload sets only `badge = 0`. -/
def zeroBadgePN : PushNotification := ⟨0, 0, "", [("aps", .pay ⟨none, 0, ""⟩)]⟩

/-- A notification whose device token is valid hex but decodes to a single
byte, not 32. -/
def shortTokenPN : PushNotification := ⟨1, 0, "ab", []⟩

/-- A notification with a valid 32-byte token and a 320-byte JSON payload
(above 256, well below 2048). -/
def oversizePN : PushNotification :=
  ⟨1, 0, String.mk (List.replicate 64 'a'),
   [("aps", .pay ⟨some (String.mk (List.replicate 300 'a')), 0, ""⟩)]⟩

/-- A notification with a valid two-byte token and a tiny payload. -/
def smallTokenPN : PushNotification := ⟨2, 0, "aabb", []⟩

/-- A notification whose device token is not valid hex. -/
def badTokenPN : PushNotification := ⟨7, 0, "zz", []⟩

/-- Another notification whose device token is not valid hex. -/
def badTokenPN2 : PushNotification := ⟨8, 0, "xy", []⟩

/-! ## Helper lemmas -/

/-- If no limbo entry's identifier matches the response's, the scan emits
nothing and requeues nothing. -/
theorem limboScan_no_match (resp : Response) (l : List timedPushNotification)
    (h : ∀ e ∈ l, e.pushNotification.Identifier ≠ resp.Identifier) :
    limboScan resp l = ([], []) := by
  induction l with
  | nil => rfl
  | cons a t ih =>
    have ha := h a (List.mem_cons_self a t)
    have ht : ∀ e ∈ t, e.pushNotification.Identifier ≠ resp.Identifier :=
      fun e he => h e (List.mem_cons_of_mem a he)
    simp [limboScan, ha, ih ht]

/-- The scan over a limbo buffer with a unique matching entry: the emitted
errors are exactly the matched entry with the response's status (when that
status is not 10), and the requeued notifications are exactly the entries
after the match, in order. -/
theorem limboScan_unique (resp : Response) (l₁ l₂ : List timedPushNotification)
    (e : timedPushNotification)
    (hmatch : e.pushNotification.Identifier = resp.Identifier)
    (h₁ : ∀ x ∈ l₁, x.pushNotification.Identifier ≠ resp.Identifier)
    (h₂ : ∀ x ∈ l₂, x.pushNotification.Identifier ≠ resp.Identifier) :
    limboScan resp (l₁ ++ e :: l₂) =
      ((if resp.Status ≠ 10 then [⟨e.pushNotification, resp.Status⟩] else []),
       l₂.map (·.pushNotification)) := by
  induction l₁ with
  | nil =>
    have htail := limboScan_no_match resp l₂ h₂
    simp only [List.nil_append, limboScan, hmatch, if_pos rfl, htail]
    cases l₂ <;> simp
  | cons a t ih =>
    have ha := h₁ a (List.mem_cons_self a t)
    have ht : ∀ x ∈ t, x.pushNotification.Identifier ≠ resp.Identifier :=
      fun x hx => h₁ x (List.mem_cons_of_mem a hx)
    simp [limboScan, ha, ih ht]

/-- In a list whose images under `f` are pairwise distinct, elements left
and right of a distinguished element have images different from its. -/
theorem nodup_map_split {α β : Type} (f : α → β) (l₁ l₂ : List α) (e : α)
    (h : ((l₁ ++ e :: l₂).map f).Nodup) :
    (∀ x ∈ l₁, f x ≠ f e) ∧ (∀ x ∈ l₂, f x ≠ f e) := by
  rw [List.map_append, List.map_cons, List.nodup_append] at h
  obtain ⟨_, h₂, hd⟩ := h
  constructor
  · intro x hx heq
    exact hd (List.mem_map_of_mem f hx) (by rw [heq]; exact List.mem_cons_self _ _)
  · intro x hx heq
    have := (List.nodup_cons.mp h₂).1
    exact this (heq ▸ List.mem_map_of_mem f hx)

/-- Capping distributes over scaling: capping before or after multiplying
by a positive factor and re-capping agree. -/
theorem min_mul_cap (a m c : Nat) (hc : 0 < c) :
    min (min a m * c) m = min (a * c) m := by
  rcases Nat.le_total a m with hh | hh
  · rw [Nat.min_eq_left hh]
  · rw [Nat.min_eq_right hh,
        Nat.min_eq_right (Nat.le_mul_of_pos_right m hc),
        Nat.min_eq_right (Nat.le_trans hh (Nat.le_mul_of_pos_right a hc))]

/-- `capBackoff` is `min` with the ceiling. -/
theorem capBackoff_eq_min (b : Nat) : capBackoff b = min b maxBackoff := by
  unfold capBackoff
  split <;> omega

/-- Closed form of the reconnect loop: after `n` consecutive connect
failures starting from backoff `b`, the `k`-th sleep (0-indexed) is
`min (b * 2 ^ (k+1)) maxBackoff` nanoseconds — the doubling happens before
the sleep — and the loop leaves the backoff at 100 ns after the eventual
success. -/
theorem reconnectLoop_spec (n : Nat) :
    ∀ b : Nat,
      (reconnectLoop n b).1 =
        (List.range n).map (fun k => min (b * 2 ^ (k + 1)) maxBackoff) ∧
      (reconnectLoop n b).2 = 100 := by
  induction n with
  | zero => intro b; simp [reconnectLoop]
  | succ m ih =>
    intro b
    rw [reconnectLoop, capBackoff_eq_min]
    refine ⟨?_, (ih (min (b * 2) maxBackoff)).2⟩
    rw [(ih (min (b * 2) maxBackoff)).1, List.range_succ_eq_map,
        List.map_cons, List.map_map]
    refine List.cons_eq_cons.mpr ⟨by norm_num, ?_⟩
    apply List.map_congr_left
    intro k _
    have hstep : min (min (b * 2) maxBackoff * 2 ^ (k + 1)) maxBackoff
        = min (b * 2 ^ (k + 1 + 1)) maxBackoff := by
      rw [min_mul_cap _ _ _ (pow_pos (by norm_num) (k + 1))]
      have harith : b * 2 * 2 ^ (k + 1) = b * 2 ^ (k + 1 + 1) := by ring
      rw [harith]
    simpa using hstep

/-! ## Claim theorems -/

/-- C1: when an error frame's identifier matches a limbo entry (and limbo
identifiers are pairwise distinct), exactly the entries inserted strictly
after the matched one are requeued to the input queue — each exactly once,
in insertion order (the order of the `Enqueue` calls) — no entry at or
before the match is requeued, and the limbo buffer is empty afterwards. -/
theorem C1_error_frame_requeues_exact_tail (resp : Response)
    (l₁ l₂ : List timedPushNotification) (e : timedPushNotification)
    (hmatch : e.pushNotification.Identifier = resp.Identifier)
    (hnodup : ((l₁ ++ e :: l₂).map (·.pushNotification.Identifier)).Nodup) :
    (processResponse resp (l₁ ++ e :: l₂)).2.1 = l₂.map (·.pushNotification) ∧
    (processResponse resp (l₁ ++ e :: l₂)).2.2 = [] := by
  obtain ⟨h₁, h₂⟩ :=
    nodup_map_split (fun x => x.pushNotification.Identifier) l₁ l₂ e hnodup
  have h₁' : ∀ x ∈ l₁, x.pushNotification.Identifier ≠ resp.Identifier :=
    fun x hx => hmatch ▸ h₁ x hx
  have h₂' : ∀ x ∈ l₂, x.pushNotification.Identifier ≠ resp.Identifier :=
    fun x hx => hmatch ▸ h₂ x hx
  simp [processResponse, limboScan_unique resp l₁ l₂ e hmatch h₁' h₂']

/-- C1 witness: the S5 scenario — limbo 10,11,12,13,14 and an error frame
for 12 requeues exactly 13 and 14 and clears limbo. -/
theorem C1_witness :
    (processResponse ⟨8, 12⟩
        ([mkTimed 10, mkTimed 11] ++ mkTimed 12 :: [mkTimed 13, mkTimed 14])).2.1
      = [mkTimed 13, mkTimed 14].map (·.pushNotification) ∧
    (processResponse ⟨8, 12⟩
        ([mkTimed 10, mkTimed 11] ++ mkTimed 12 :: [mkTimed 13, mkTimed 14])).2.2
      = [] :=
  C1_error_frame_requeues_exact_tail ⟨8, 12⟩ [mkTimed 10, mkTimed 11]
    [mkTimed 13, mkTimed 14] (mkTimed 12) (by decide) (by decide)

/-- C2: for a matched error frame, a `BadPushNotification` carrying the
matched notification and the frame's status is emitted iff the status is
not 10; status 10 is never reported, and the requeue of the later entries
happens either way. -/
theorem C2_shutdown_status_suppressed (resp : Response)
    (l₁ l₂ : List timedPushNotification) (e : timedPushNotification)
    (hmatch : e.pushNotification.Identifier = resp.Identifier)
    (hnodup : ((l₁ ++ e :: l₂).map (·.pushNotification.Identifier)).Nodup) :
    (processResponse resp (l₁ ++ e :: l₂)).1 =
      (if resp.Status ≠ 10 then [⟨e.pushNotification, resp.Status⟩] else []) ∧
    (processResponse resp (l₁ ++ e :: l₂)).2.1 = l₂.map (·.pushNotification) := by
  obtain ⟨h₁, h₂⟩ :=
    nodup_map_split (fun x => x.pushNotification.Identifier) l₁ l₂ e hnodup
  have h₁' : ∀ x ∈ l₁, x.pushNotification.Identifier ≠ resp.Identifier :=
    fun x hx => hmatch ▸ h₁ x hx
  have h₂' : ∀ x ∈ l₂, x.pushNotification.Identifier ≠ resp.Identifier :=
    fun x hx => hmatch ▸ h₂ x hx
  simp [processResponse, limboScan_unique resp l₁ l₂ e hmatch h₁' h₂']

/-- C2 witness: the S6 scenario — status 10 for identifier 12 emits no
`BadPushNotification` while 13 and 14 are still requeued. -/
theorem C2_witness :
    (processResponse ⟨10, 12⟩
        ([mkTimed 10, mkTimed 11] ++ mkTimed 12 :: [mkTimed 13, mkTimed 14])).1
      = (if (10 : Nat) ≠ 10 then [⟨(mkTimed 12).pushNotification, 10⟩] else []) ∧
    (processResponse ⟨10, 12⟩
        ([mkTimed 10, mkTimed 11] ++ mkTimed 12 :: [mkTimed 13, mkTimed 14])).2.1
      = [mkTimed 13, mkTimed 14].map (·.pushNotification) :=
  C2_shutdown_status_suppressed ⟨10, 12⟩ [mkTimed 10, mkTimed 11]
    [mkTimed 13, mkTimed 14] (mkTimed 12) (by decide) (by decide)

/-- C3 counterexample: a limbo buffer holding one entry with identifier 5
receives an error frame for identifier 7 (no match): contrary to the
claim, nothing at all is requeued, although limbo was nonempty. -/
theorem C3_counterexample :
    (mkTimed 5).pushNotification.Identifier = 5 ∧
    respC3.Identifier = 7 ∧
    (processResponse respC3 limboC3).2.1 = [] ∧
    limboC3 ≠ [] := by decide

/-- C3 (amended): when an error frame matches no limbo entry, the engine
requeues nothing and reports nothing — the frame is dropped — and the
limbo buffer is still cleared. -/
theorem C3_amended_unmatched_frame_dropped (resp : Response)
    (limbo : List timedPushNotification)
    (h : ∀ e ∈ limbo, e.pushNotification.Identifier ≠ resp.Identifier) :
    processResponse resp limbo = ([], [], []) := by
  simp [processResponse, limboScan_no_match resp limbo h]

/-- C3 witness: the unmatched frame on the one-entry limbo buffer drops
everything and clears limbo. -/
theorem C3_witness :
    processResponse respC3 limboC3 = ([], [], []) :=
  C3_amended_unmatched_frame_dropped respC3 limboC3 (by decide)

/-- C4 (code bug): the `Payload` struct declares `Badge int` with
`omitempty`, so a badge of 0 is omitted by `encoding/json`: a notification
whose `aps` payload sets only `badge = 0` marshals to `{"aps":{}}`, not to
the `{"aps":{"badge":0}}` that the spec and the repository's own
`TestZeroBadge` require. -/
theorem C4_zero_badge_omitted :
    zeroBadgePN.PayloadJSON = "\x7b\"aps\":\x7b\x7d\x7d" ∧
    zeroBadgePN.PayloadJSON ≠ "\x7b\"aps\":\x7b\"badge\":0\x7d\x7d" := by decide

/-- C5 counterexample: identifiers are `v % IDENTIFIER_UBOUND` of the
call's raw PRNG sample `v` (both 9998 and 9999 survive `Int31n`'s
rejection step), so a process whose consecutive constructions draw raw
samples 9998 then 9999 assigns identifiers 9998 then 0 — the second is not
greater than the first. -/
theorem C5_counterexample :
    newPushNotificationIdentifier 9998 = 9998 ∧
    newPushNotificationIdentifier 9999 = 0 ∧
    ¬ newPushNotificationIdentifier 9998 < newPushNotificationIdentifier 9999 := by
  decide

/-- C5 (amended): identifiers assigned by `NewPushNotification` are
pseudo-random values below `IDENTIFIER_UBOUND = 9999` (not a monotonic
counter); nothing orders consecutive assignments. -/
theorem C5_amended_identifier_bounded (v : Nat) :
    newPushNotificationIdentifier v < IDENTIFIER_UBOUND :=
  Nat.mod_lt v (by decide)

/-- C6 counterexample: a device token that decodes to a single byte (not
32) still encodes successfully — `ToBytes` never checks the decoded
length; the byte count 1 is framed as the token length. -/
theorem C6_counterexample :
    hexDecode shortTokenPN.DeviceToken = some [171] ∧
    shortTokenPN.ToBytes =
      .ok [1, 0, 0, 0, 1, 0, 0, 0, 0, 0, 1, 171, 0, 2, 123, 125] :=
  ⟨by decide, rfl⟩

/-- C6 (amended): `ToBytes` returns the token-encoding error exactly when
the device token fails `hex.DecodeString` (odd length or invalid digit);
the decoded byte length is not validated against 32. -/
theorem C6_amended_token_error_iff_bad_hex (pn : PushNotification) :
    pn.ToBytes = .error .badToken ↔ hexDecode pn.DeviceToken = none := by
  unfold PushNotification.ToBytes
  cases h : hexDecode pn.DeviceToken with
  | none => simp
  | some tok =>
    constructor
    · intro hc
      by_cases hlen :
          (strBytes pn.PayloadJSON).length > MAX_PAYLOAD_SIZE_BYTES <;>
        simp [hlen] at hc
    · intro hc
      exact absurd hc (by simp)

set_option maxRecDepth 8000 in
/-- C7 counterexample: a notification with a valid 32-byte token and a
320-byte JSON payload — within the claimed 2048-byte allowance for
iOS ≥ 8 — nevertheless fails to encode: the only limit in the code is
256 bytes. -/
theorem C7_counterexample :
    oversizePN.ToBytes = .error .payloadTooLarge ∧
    (strBytes oversizePN.PayloadJSON).length = 320 ∧
    (320 : Nat) ≤ 2048 :=
  ⟨rfl, by decide, by decide⟩

/-- C7 (amended): for a notification whose token is valid hex, encoding
fails (with the payload-size error, producing no frame) exactly when the
JSON payload exceeds `MAX_PAYLOAD_SIZE_BYTES = 256` — the single limit,
with no iOS-version distinction — and succeeds otherwise. -/
theorem C7_amended_single_256_limit (pn : PushNotification) (tok : List Nat)
    (h : hexDecode pn.DeviceToken = some tok) :
    (pn.ToBytes = .error .payloadTooLarge ↔
      MAX_PAYLOAD_SIZE_BYTES < (strBytes pn.PayloadJSON).length) ∧
    (encodeOk pn.ToBytes = true ↔
      (strBytes pn.PayloadJSON).length ≤ MAX_PAYLOAD_SIZE_BYTES) := by
  by_cases hlen : (strBytes pn.PayloadJSON).length > MAX_PAYLOAD_SIZE_BYTES
  · have hb : pn.ToBytes = .error .payloadTooLarge := by
      unfold PushNotification.ToBytes
      rw [h]
      simp [hlen]
    rw [hb]
    exact ⟨⟨fun _ => hlen, fun _ => rfl⟩,
           ⟨fun hc => by simp [encodeOk] at hc, fun hle => absurd hle (by omega)⟩⟩
  · have hb : encodeOk pn.ToBytes = true ∧ pn.ToBytes ≠ .error .payloadTooLarge := by
      unfold PushNotification.ToBytes
      rw [h]
      simp [hlen, encodeOk]
    exact ⟨⟨fun hc => absurd hc hb.2, fun hlt => absurd hlt hlen⟩,
           ⟨fun _ => by omega, fun _ => hb.1⟩⟩

/-- C7 witness: a valid two-byte token with a tiny payload instantiates
the amended statement. -/
theorem C7_witness :
    hexDecode smallTokenPN.DeviceToken = some [170, 187] ∧
    ((smallTokenPN.ToBytes = .error .payloadTooLarge ↔
       MAX_PAYLOAD_SIZE_BYTES < (strBytes smallTokenPN.PayloadJSON).length) ∧
     (encodeOk smallTokenPN.ToBytes = true ↔
       (strBytes smallTokenPN.PayloadJSON).length ≤ MAX_PAYLOAD_SIZE_BYTES)) :=
  ⟨by decide, C7_amended_single_256_limit smallTokenPN [170, 187] (by decide)⟩

/-- C8 counterexample: when the dequeued notification fails to encode (bad
hex token), the sender emits no `BadPushNotification` — it only logs —
while indeed writing no bytes and creating no limbo entry. -/
theorem C8_counterexample :
    badTokenPN.ToBytes = .error .badToken ∧
    (senderDispatch badTokenPN true).badEmitted = [] ∧
    (senderDispatch badTokenPN true).wireBytes = [] ∧
    (senderDispatch badTokenPN true).sentToLimbo = none :=
  ⟨rfl, rfl, rfl, rfl⟩

/-- C8 (amended): on an encode error the sender drops the notification
with only a log line: nothing is emitted to the caller, no bytes reach the
socket, no limbo entry is created, and no reconnect is raised. -/
theorem C8_amended_encode_error_only_logged (pn : PushNotification)
    (w : Bool) (e : EncodeError) (h : pn.ToBytes = .error e) :
    senderDispatch pn w = ⟨[], none, [], false⟩ := by
  simp [senderDispatch, h]

/-- C8 witness: a notification with an invalid hex token instantiates the
amended statement. -/
theorem C8_witness :
    badTokenPN2.ToBytes = .error .badToken ∧
    senderDispatch badTokenPN2 true = ⟨[], none, [], false⟩ :=
  ⟨rfl, C8_amended_encode_error_only_logged badTokenPN2 true .badToken rfl⟩

/-- C9 counterexample: after the first failed connect attempt the engine
sleeps 200 nanoseconds — not the 100 milliseconds the claim's starting
backoff implies, and not the pre-doubling current backoff of 100 ns
either: the code doubles before sleeping and starts from
`time.Duration(100)` = 100 ns. -/
theorem C9_counterexample :
    (reconnectLoop 1 initialBackoff).1 = [200] ∧
    (200 : Nat) ≠ 100 * 1000000 ∧
    (200 : Nat) ≠ initialBackoff := by decide

/-- C9 (amended): after every failed connect attempt the backoff is first
doubled, capped at `maxBackoff` = 20 s, and then slept, so the `k`-th
sleep is `min (100 * 2 ^ (k+1)) maxBackoff` nanoseconds; the backoff
starts at `time.Duration(100)` = 100 ns and is reset to 100 ns after a
successful connect. -/
theorem C9_amended_backoff_doubles_then_sleeps (n : Nat) :
    (reconnectLoop n initialBackoff).1 =
      (List.range n).map (fun k => min (initialBackoff * 2 ^ (k + 1)) maxBackoff) ∧
    (reconnectLoop n initialBackoff).2 = initialBackoff :=
  ⟨(reconnectLoop_spec n initialBackoff).1, (reconnectLoop_spec n initialBackoff).2⟩

/-- C10: `Connection.Close` is idempotent and total at the public
interface: with no underlying socket it returns nil and changes nothing;
a successful close resets `writeCount` to 0, `connectTime` to the zero
time and the socket to nil, so a second `Close` right after a successful
one also returns nil. -/
theorem C10_close_idempotent (c : Connection) (e e' : Bool) :
    (c.connection = false → c.Close e = (none, c)) ∧
    (c.connection = true →
      (c.Close false).1 = none ∧
      (c.Close false).2 = ⟨false, 0, 0⟩ ∧
      (c.Close false).2.Close e' = (none, (c.Close false).2)) := by
  constructor
  · intro h; simp [Connection.Close, h]
  · intro h; simp [Connection.Close, h]

/-- C10 witness: a socketless connection and an open connection instantiate
both halves of the close contract. -/
theorem C10_witness :
    ((⟨false, 3, 5⟩ : Connection).Close true = (none, ⟨false, 3, 5⟩)) ∧
    (((⟨true, 3, 5⟩ : Connection).Close false).1 = none ∧
     ((⟨true, 3, 5⟩ : Connection).Close false).2 = (⟨false, 0, 0⟩ : Connection) ∧
     ((⟨true, 3, 5⟩ : Connection).Close false).2.Close true =
       (none, ((⟨true, 3, 5⟩ : Connection).Close false).2)) :=
  ⟨(C10_close_idempotent ⟨false, 3, 5⟩ true true).1 rfl,
   (C10_close_idempotent ⟨true, 3, 5⟩ false true).2 rfl⟩

end Apns
